import Mathlib

/-!
# Verification of the maritime request-dispatch core

A shallow embedding of the maritime HTTP dispatch core: the `Maritime`
application class (source file `part_000`, the dispatcher), the `Route`
class (`src/router/route.js`), and — where the repository code is not
available under `src/` (`router.js`, `middlewareCompiler.js`, the external
`path-to-regexp` library) — models built from the specification, each
marked `Modelled from the spec:` in its doc comment.

Two layers are embedded:

* a JS-value-level model (`JSValue`, `Maritime`) for the argument-shape
  sensitive setup methods `use`, `mount`, `set`/`get`, the constructor and
  `constructData`;
* a dispatch-level model (`Handler`, `Router`, `runChain`, `handleRequest`)
  in which middleware functions are abstracted as records carrying an
  identity, a does-it-call-next flag and an effect on the request view,
  and execution produces a trace of invocation entries.
-/

set_option autoImplicit false
set_option linter.dupNamespace false

namespace Maritime

/-! ## Path patterns and compiled matchers

The source compiles path patterns with the external `path-to-regexp`
library (`route.js` line 1). Modelled from the spec (§4.1 PathMatcher):
a pattern is a slash-separated list of segments, each either a literal or
a `:name` placeholder; the compiled matcher tests a concrete path
segment-wise and, on success, yields the bindings of placeholder names to
the (non-empty) path segments they consumed. -/

/-- One compiled segment of a path pattern: a literal or a named parameter. -/
inductive Segment where
  | lit (s : String)
  | param (name : String)
  deriving DecidableEq, Repr

/-- Splits a character list on the slash character, accumulating the
current segment in reverse. -/
def splitPathAux : List Char → List Char → List String
  | [], acc => [String.mk acc.reverse]
  | c :: cs, acc =>
    if c = '/' then String.mk acc.reverse :: splitPathAux cs []
    else splitPathAux cs (c :: acc)

/-- Splits a path or pattern string into its slash-separated segments. -/
def splitPath (s : String) : List String :=
  splitPathAux s.data []

/-- Parses one pattern segment: a leading colon marks a named parameter. -/
def parseSegment (s : String) : Segment :=
  match s.data with
  | ':' :: rest => .param (String.mk rest)
  | _ => .lit s

/-- Modelled from the spec: the `pathToRegexp` compile step of the external
`path-to-regexp` dependency (§4.1 `compile(pattern, options) -> CompiledMatcher`),
restricted to literal and `:name` segments. -/
def pathToRegexp (p : String) : List Segment :=
  (splitPath p).map parseSegment

/-- The ordered parameter names a compiled matcher will bind
(§4.1: derived left-to-right from placeholder segments). -/
def paramNames (segs : List Segment) : List String :=
  segs.filterMap (fun sg =>
    match sg with
    | .param n => some n
    | .lit _ => none)

/-- Segment-wise matching: literals must coincide, a parameter consumes one
non-empty path segment and binds its name to it; the whole path must be
consumed (§4.1 default `end` behaviour). -/
def matchSegments : List Segment → List String → Option (List (String × String))
  | [], [] => some []
  | .lit s :: ps, x :: xs =>
    if x = s then matchSegments ps xs else none
  | .param n :: ps, x :: xs =>
    if x = "" then none
    else (matchSegments ps xs).map (fun bs => (n, x) :: bs)
  | _, _ => none

/-- The compiled matcher's boolean test (`regex.test(path)` in `route.js`). -/
def regexTest (segs : List Segment) (path : String) : Bool :=
  (matchSegments segs (splitPath path)).isSome

/-- The compiled matcher's parameter extraction
(§4.1 `exec(path) -> mapping | none`). -/
def regexExec (segs : List Segment) (path : String) : Option (List (String × String)) :=
  matchSegments segs (splitPath path)

/-- `String.toLowerCase` of JS, modelled character-wise. -/
def lowerString (s : String) : String :=
  String.mk (s.data.map Char.toLower)

/-! ## The request view and abstract handlers -/

/-- The slice of the per-request view (`data.req`) that route matching and
dispatch read and write: `strippedPath` (set by `constructData`), `method`,
and the `params` bindings assigned by `handleRequest`. -/
structure ReqData where
  strippedPath : String
  method : String
  params : List (String × String)

/-- An abstract middleware function: `id` identifies it in execution
traces, `callsNext` says whether it invokes its continuation (exactly once,
after its body), and `eff` is its effect on the request view, observed by
whatever runs after it. -/
structure Handler where
  id : Nat
  callsNext : Bool
  eff : ReqData → ReqData

/-! ## Route (`src/router/route.js`) -/

/-- The `Route` class of `src/router/route.js`: methods, pattern string,
route-scoped middleware, the parameter-name list and compiled matcher kept
in sync with the pattern.  The `params` field holds the bindings extracted
from a concrete path; `route.js` itself never writes it, but the
dispatcher reads `matchData.route.params` (`part_000` line 157), so the
owning Router's `findRoute` — whose source is not under `src/` — populates
it (Modelled from the spec: §4.5 "binds extracted parameters onto the
request view"). -/
structure Route where
  methods : List String
  path : String
  middleware : List Handler
  parameters : List String
  regex : List Segment
  params : List (String × String)

/-- The `Route` constructor (`route.js` lines 3–11): stores the fields and
compiles `path` into `regex`, filling `parameters` with the placeholder
names. -/
def Route.make (methods : List String) (path : String) (mw : List Handler) : Route :=
  let segs := pathToRegexp path
  { methods := methods
    path := path
    middleware := mw
    parameters := paramNames segs
    regex := segs
    params := [] }

/-- `Route.prototype.match` (`route.js` lines 13–15): delegates to the
compiled matcher's test. -/
def Route.matchPath (r : Route) (path : String) : Bool :=
  regexTest r.regex path

/-- `Route.prototype.rebaseRoute` (`route.js` lines 17–25): when `path` is
truthy (a non-empty string), prepends `routeBase`, resets `parameters` and
recompiles `regex`; always returns the route. -/
def Route.rebaseRoute (r : Route) (routeBase : String) : Route :=
  if r.path = "" then r
  else
    let newPath := routeBase ++ r.path
    let segs := pathToRegexp newPath
    { r with path := newPath, parameters := paramNames segs, regex := segs }

/-! ## JS values and the `Maritime` application object (setup surface)

The setup methods of the `Maritime` class (`part_000`) inspect their
arguments with `typeof`, truthiness and `instanceof`; this layer embeds
enough of JS's value model to state those checks faithfully.  A thrown JS
exception is modelled as `Except.error` carrying the error message (or the
literal tag `"TypeError"` for a method call on a value lacking that
method). -/

/-- A JS value as seen by the setup surface: strings, numbers, functions
(identified by a label), booleans, `undefined`, a maritime Router object
(owned routes plus router-scoped middleware, `router.js` not being under
`src/`), and `duckObj`, a plain object that is *not* a maritime Router but
happens to provide `rebaseRouter`/`use`/`createRegex` methods (each a
no-op returning the object) — the simplest duck-typed non-Router. -/
inductive JSValue where
  | str (s : String)
  | num (n : Int)
  | fn (id : Nat)
  | boolV (b : Bool)
  | undefV
  | routerObj (routes : List Route) (middleware : List JSValue)
  | duckObj

/-- JS truthiness of a value. -/
def jsTruthy : JSValue → Bool
  | .str s => s != ""
  | .num n => n != 0
  | .fn _ => true
  | .boolV b => b
  | .undefV => false
  | .routerObj _ _ => true
  | .duckObj => true

/-- The JS `!` operator: always yields a boolean. -/
def jsNot (v : JSValue) : JSValue :=
  .boolV (!(jsTruthy v))

/-- `v instanceof maritimeRouter`: true exactly for Router objects.
A boolean, a plain object or any other value is never an instance. -/
def instanceOfMaritimeRouter : JSValue → Bool
  | .routerObj _ _ => true
  | _ => false

/-- `typeof v == "string"`. -/
def jsTypeofString : JSValue → Bool
  | .str _ => true
  | _ => false

/-- `typeof v == "function"`. -/
def jsTypeofFunction : JSValue → Bool
  | .fn _ => true
  | _ => false

/-- `v === true`: strict equality against the boolean `true`. -/
def isTrueVal : JSValue → Bool
  | .boolV true => true
  | _ => false

/-- Normalises a JS `Array.prototype.slice` index: negative indices count
from the end (clamped at 0), positive ones are clamped at the length. -/
def jsSliceIndex (n : Nat) (i : Int) : Nat :=
  if i < 0 then ((n : Int) + i).toNat else min i.toNat n

/-- JS `Array.prototype.slice(a, b)`. -/
def jsSlice (xs : List JSValue) (a b : Int) : List JSValue :=
  let s := jsSliceIndex xs.length a
  let e := jsSliceIndex xs.length b
  (xs.drop s).take (e - s)

/-- JS indexing `args[i]`: out-of-range access yields `undefined`. -/
def getArg (args : List JSValue) (i : Nat) : JSValue :=
  args.getD i .undefV

/-- The `Maritime` application object (`part_000` constructor, lines
12–28): global middleware list, mounted-router list, the settings bag and
the environment name.  The remaining constructor fields (prototype
clones, proxy configuration, keys) do not participate in the claims. -/
structure Maritime where
  globalMiddleware : List JSValue
  mountedRouters : List JSValue
  settings : List (String × JSValue)
  env : String

/-- `Maritime.set` (lines 37–39): `this.settings[setting] = val`,
modelled as a prepend that shadows earlier entries. -/
def Maritime.set (app : Maritime) (setting : String) (val : JSValue) : Maritime :=
  { app with settings := (setting, val) :: app.settings }

/-- `Maritime.get` (lines 47–49): reads the settings bag; a missing key
yields `undefined`. -/
def Maritime.get (app : Maritime) (setting : String) : JSValue :=
  match app.settings.find? (fun kv => kv.fst == setting) with
  | some kv => kv.snd
  | none => .undefV

/-- JS `a || b` on strings (the empty string is falsy), used by the
constructor's environment defaulting. -/
def jsOrStr (a b : String) : String :=
  if a = "" then b else a

/-- The `Maritime` constructor (lines 12–28): empty middleware and router
lists, `env = options.env || process.env.NODE_ENV || "development"` (an
absent value is passed as the falsy `""`), and
`set("x-powered-by", env !== "production")`. -/
def Maritime.make (optionsEnv nodeEnv : String) : Maritime :=
  let env := jsOrStr optionsEnv (jsOrStr nodeEnv "development")
  Maritime.set
    { globalMiddleware := [], mountedRouters := [], settings := [], env := env }
    "x-powered-by" (.boolV (env != "production"))

/-- `Maritime.use` (lines 57–62): throws unless the argument is a
function, otherwise pushes it onto the global middleware list. -/
def Maritime.use (app : Maritime) (middleware : JSValue) : Except String Maritime :=
  if !(jsTypeofFunction middleware) then
    .error "Middleware provided with .use() must be a function."
  else
    .ok { app with globalMiddleware := app.globalMiddleware ++ [middleware] }

/-- `router.rebaseRouter(baseRoute)` as called at `part_000` line 102.
`router.js` is not under `src/`; Modelled from the spec: §4.3 mount
rebasing "rebases every Route owned transitively by `child` by prefixing
`basePath`", and the call site rebinds `router` to the returned value, so
the router itself is returned.  On a value without the method JS raises a
TypeError; `duckObj` carries a no-op method. -/
def jsRebaseRouter (v : JSValue) (base : String) : Except String JSValue :=
  match v with
  | .routerObj routes mw => .ok (.routerObj (routes.map (fun r => r.rebaseRoute base)) mw)
  | .duckObj => .ok .duckObj
  | _ => .error "TypeError"

/-- `router.use(undefined, middleware)` as called at `part_000` line 104.
`router.js` is not under `src/`; Modelled from the spec: §4.3 mount
"prepends it to `child`'s router-scoped middleware". -/
def jsRouterUse (v : JSValue) (mw : List JSValue) : Except String JSValue :=
  match v with
  | .routerObj routes rmw => .ok (.routerObj routes (mw ++ rmw))
  | .duckObj => .ok .duckObj
  | _ => .error "TypeError"

/-- `router.applyRoutingEngine(engine)` as called at `part_000` line 109.
`router.js` is not under `src/` and the spec treats routing engines as out
of scope (§1); Modelled from the spec: a structure-preserving
configuration step, identity on the router model. -/
def jsApplyRoutingEngine (v : JSValue) (engine : JSValue) : Except String JSValue :=
  match v, engine with
  | .routerObj routes mw, _ => .ok (.routerObj routes mw)
  | .duckObj, _ => .ok .duckObj
  | _, _ => .error "TypeError"

/-- `router.createRegex()` as called at `part_000` line 112.  `router.js`
is not under `src/`; Modelled from the spec: §4.3 `activate` "finalizes
compiled matchers for all owned Routes" — each owned Route's matcher is
recompiled from its current pattern. -/
def jsCreateRegex (v : JSValue) : Except String JSValue :=
  match v with
  | .routerObj routes mw =>
    .ok (.routerObj
      (routes.map (fun r =>
        { r with regex := pathToRegexp r.path, parameters := paramNames (pathToRegexp r.path) }))
      mw)
  | .duckObj => .ok .duckObj
  | _ => .error "TypeError"

/-- `Maritime.mount` (`part_000` lines 71–116), argument shapes included:
a string first argument is the base route, and when the second argument is
a function the middleware is `args.slice(1, args.length - 2)`; a function
first argument makes the middleware `args.slice(0, args.length - 2)`;
otherwise the single argument is the router.  The router check is the
source's `if (!router instanceof maritimeRouter) throw ...`, which by JS
precedence tests `(!router) instanceof maritimeRouter`.  Then base
rebasing, mount middleware, the routing engine, `createRegex`, and the
push onto `mountedRouters`. -/
def Maritime.mount (app : Maritime) (args : List JSValue) : Except String Maritime :=
  let n : Int := (args.length : Int)
  let parsed : Option String × Option (List JSValue) × JSValue :=
    if jsTypeofString (getArg args 0) then
      let base :=
        match getArg args 0 with
        | .str s => some s
        | _ => none
      let mw :=
        if jsTypeofFunction (getArg args 1) then some (jsSlice args 1 (n - 2)) else none
      (base, mw, getArg args (args.length - 1))
    else if jsTypeofFunction (getArg args 0) then
      (none, some (jsSlice args 0 (n - 2)), getArg args (args.length - 1))
    else
      (none, none, getArg args 0)
  match parsed with
  | (baseRoute, middleware, router0) =>
    if instanceOfMaritimeRouter (jsNot router0) then
      .error "Only maritime routers can be mounted for use with maritime."
    else do
      let router1 ←
        match baseRoute with
        | some b => jsRebaseRouter router0 b
        | none => Except.ok router0
      let router2 ←
        match middleware with
        | some mw => jsRouterUse router1 mw
        | none => Except.ok router1
      let engine := app.get "routing-engine"
      let router3 ←
        if jsTruthy engine then jsApplyRoutingEngine router2 engine else Except.ok router2
      let router4 ← jsCreateRegex router3
      Except.ok { app with mountedRouters := app.mountedRouters ++ [router4] }

/-- `url.parse(req.url).pathname`: the path part of the request URL,
everything before a query string. -/
def stripQuery (u : String) : String :=
  String.mk (u.data.takeWhile (fun c => c != '?'))

/-- The observable output of `Maritime.constructData` (`part_000` lines
172–196) that the claims concern: the response headers set by the
dispatcher itself, and the stripped path recorded for matching. -/
structure DataView where
  headers : List (String × String)
  strippedPath : String

/-- `Maritime.constructData` (lines 172–196): sets the
`X-Powered-By: Maritime` response header exactly when the
`"x-powered-by"` setting is `=== true`, and records
`url.parse(req.url).pathname` as the stripped path. -/
def Maritime.constructData (app : Maritime) (reqUrl : String) : DataView :=
  { headers :=
      if isTrueVal (app.get "x-powered-by") then [("X-Powered-By", "Maritime")] else []
    strippedPath := stripQuery reqUrl }

/-! ## The dispatch-level model

`handleRequest` and `findRouteMatch` (`part_000` lines 130–170) drive
per-request dispatch.  Middleware lists here are lists of abstract
`Handler`s; chain execution (the missing `middlewareCompiler.js`) is
modelled from the spec §4.4 and produces a trace of invocation entries,
each recording the handler's identity and the `params` visible on the
request view at its invocation. -/

/-- A maritime Router as the dispatcher sees it: owned routes in
declaration order plus router-scoped middleware (`router.js` is not under
`src/`; shape from the spec §3/§4.3). -/
structure Router where
  routes : List Route
  middleware : List Handler

/-- Does a Route accept this path and (lowercased) method?  Modelled from
the spec (§4.3 `resolve`): the compiled matcher's `test(path)` succeeds
and `methods` contains the method or the wildcard. -/
def routeAccepts (rt : Route) (path method : String) : Bool :=
  regexTest rt.regex path && (rt.methods.contains method || rt.methods.contains "*")

/-- `router.findRoute(path, method)` (`router.js` is not under `src/`).
Modelled from the spec: §4.3 `resolve` scans the Router's own Routes in
declaration order, first match wins, and §4.5 requires the extracted
parameter bindings, which the dispatcher reads back as
`matchData.route.params` (`part_000` line 157): the returned Route
carries them in its `params` field. -/
def Router.findRoute (r : Router) (path method : String) : Option Route :=
  match r.routes.find? (fun rt => routeAccepts rt path method) with
  | some rt => some { rt with params := (regexExec rt.regex path).getD [] }
  | none => none

/-- The object returned by `findRouteMatch` (`part_000` lines 135–138):
the matched Route together with the Router that owns it. -/
structure MatchData where
  route : Route
  router : Router

/-- `Maritime.findRouteMatch` (`part_000` lines 130–142): scans the
mounted Routers in mount order, calling `findRoute(path,
method.toLowerCase())` on each, and returns the first Router's match
paired with that Router; with no match it falls through (returns
`undefined`, here `none`). -/
def findRouteMatch (mountedRouters : List Router) (path method : String) : Option MatchData :=
  match mountedRouters with
  | [] => none
  | r :: rest =>
    match r.findRoute path (lowerString method) with
    | some rt => some { route := rt, router := r }
    | none => findRouteMatch rest path method

/-- One step of an execution trace: the invoked handler's identity and the
`params` bound on the request view at the moment it was invoked. -/
structure Entry where
  id : Nat
  params : List (String × String)
  deriving DecidableEq, Repr

/-- Chain execution, `middlewareCompiler.js` not being under `src/`.
Modelled from the spec (§4.4): handlers run strictly in list order; a
handler that never invokes `next` terminates the chain; the final
handler's `next` invokes the chain-external continuation `k` supplied at
invocation time.  Each invocation appends a trace entry; a handler that
continues passes its effect on the request view to the rest of the
chain. -/
def runChain (hs : List Handler) (d : ReqData) (log : List Entry)
    (k : ReqData → List Entry → List Entry) : List Entry :=
  match hs with
  | [] => k d log
  | h :: t =>
    if h.callsNext then runChain t (h.eff d) (log ++ [{ id := h.id, params := d.params }]) k
    else log ++ [{ id := h.id, params := d.params }]

/-- `Maritime.handleRequest` (`part_000` lines 144–170): runs the global
chain; its continuation (`executeRouteFuncs`) matches a route against the
request view's stripped path and method, and on a match assigns
`data.req.params = matchData.route.params` and runs the matched Router's
chain, whose continuation (`runRouteFuncs`) runs the matched Route's chain
with no further continuation; with no match it completes at once. -/
def handleRequest (globalMiddleware : List Handler) (mountedRouters : List Router)
    (d : ReqData) : List Entry :=
  runChain globalMiddleware d []
    (fun d2 log =>
      match findRouteMatch mountedRouters d2.strippedPath d2.method with
      | some matchData =>
        let d3 := { d2 with params := matchData.route.params }
        runChain matchData.router.middleware d3 log
          (fun d4 log2 =>
            runChain matchData.route.middleware d4 log2 (fun _ finalLog => finalLog))
      | none => log)

/-- The request view after a handler list has run to completion: the
composite of the handlers' effects in order. -/
def applyChain (hs : List Handler) (d : ReqData) : ReqData :=
  match hs with
  | [] => d
  | h :: t => applyChain t (h.eff d)

/-- The trace entries a handler list contributes when every handler in it
is invoked, starting from request view `d`. -/
def chainEntries (hs : List Handler) (d : ReqData) : List Entry :=
  match hs with
  | [] => []
  | h :: t => { id := h.id, params := d.params } :: chainEntries t (h.eff d)

/-! ## Concrete fixtures

Small concrete handlers, routes and requests used to instantiate the
theorems below on closed inputs. -/

/-- A handler effect that leaves the request view unchanged. -/
def effId : ReqData → ReqData := fun d => d

/-- A global middleware handler that calls its continuation. -/
def hA : Handler := { id := 0, callsNext := true, eff := effId }

/-- A global middleware handler that never calls its continuation. -/
def hStop : Handler := { id := 9, callsNext := false, eff := effId }

/-- A router-scoped middleware handler. -/
def hC : Handler := { id := 2, callsNext := true, eff := effId }

/-- A route-scoped middleware handler. -/
def hD : Handler := { id := 3, callsNext := true, eff := effId }

/-- A GET route on the literal pattern `/a` with route middleware `hD`. -/
def rtA : Route := Route.make ["get"] "/a" [hD]

/-- A router owning `rtA`, with router middleware `hC`. -/
def routerA : Router := { routes := [rtA], middleware := [hC] }

/-- A router owning no routes. -/
def routerE : Router := { routes := [], middleware := [] }

/-- A GET route on the pattern `/users/:id` with route middleware `hD`. -/
def rtU : Route := Route.make ["get"] "/users/:id" [hD]

/-- A router owning `rtU`, with router middleware `hC`. -/
def routerU : Router := { routes := [rtU], middleware := [hC] }

/-- A request for GET `/a`. -/
def reqA : ReqData := { strippedPath := "/a", method := "GET", params := [] }

/-- A request for GET `/users/42`. -/
def reqU : ReqData := { strippedPath := "/users/42", method := "GET", params := [] }

/-- A request for GET `/nope`, matched by no fixture route. -/
def reqNone : ReqData := { strippedPath := "/nope", method := "GET", params := [] }

/-! ## Helper lemmas about chain execution -/

lemma runChain_all_next (hs : List Handler) :
    ∀ (d : ReqData) (log : List Entry) (k : ReqData → List Entry → List Entry),
      (∀ x ∈ hs, x.callsNext = true) →
      runChain hs d log k = k (applyChain hs d) (log ++ chainEntries hs d) := by
  induction hs with
  | nil => intro d log k _; simp [runChain, applyChain, chainEntries]
  | cons h t ih =>
    intro d log k hall
    have hh : h.callsNext = true := hall h (List.mem_cons_self h t)
    rw [runChain, if_pos hh, ih (h.eff d) _ k (fun x hx => hall x (List.mem_cons_of_mem h hx))]
    simp [applyChain, chainEntries]

lemma runChain_shortcircuit (a : List Handler) :
    ∀ (h : Handler) (b : List Handler) (d : ReqData) (log : List Entry)
      (k : ReqData → List Entry → List Entry),
      (∀ x ∈ a, x.callsNext = true) → h.callsNext = false →
      runChain (a ++ h :: b) d log k = log ++ chainEntries (a ++ [h]) d := by
  induction a with
  | nil =>
    intro h b d log k _ hh
    rw [List.nil_append, runChain, if_neg (by simp [hh])]
    simp [chainEntries]
  | cons x xs ih =>
    intro h b d log k hall hh
    have hx : x.callsNext = true := hall x (List.mem_cons_self x xs)
    rw [List.cons_append, runChain, if_pos hx,
      ih h b (x.eff d) _ k (fun y hy => hall y (List.mem_cons_of_mem x hy)) hh]
    simp [chainEntries]

lemma chainEntries_ids (hs : List Handler) :
    ∀ d : ReqData, (chainEntries hs d).map Entry.id = hs.map Handler.id := by
  induction hs with
  | nil => intro d; rfl
  | cons h t ih => intro d; simp [chainEntries, ih]

lemma chainEntries_length (hs : List Handler) :
    ∀ d : ReqData, (chainEntries hs d).length = hs.length := by
  induction hs with
  | nil => intro d; rfl
  | cons h t ih => intro d; simp [chainEntries, ih]

lemma runChain_congr_k (hs : List Handler) :
    ∀ (d : ReqData) (log : List Entry) (k1 k2 : ReqData → List Entry → List Entry),
      (∀ l, k1 (applyChain hs d) l = k2 (applyChain hs d) l) →
      runChain hs d log k1 = runChain hs d log k2 := by
  induction hs with
  | nil => intro d log k1 k2 hk; exact hk log
  | cons h t ih =>
    intro d log k1 k2 hk
    rw [runChain, runChain]
    by_cases hh : h.callsNext = true
    · rw [if_pos hh, if_pos hh]
      exact ih (h.eff d) _ k1 k2 (fun l => hk l)
    · rw [if_neg hh, if_neg hh]

lemma runChain_append_log (hs : List Handler) :
    ∀ (d : ReqData) (log : List Entry) (k : ReqData → List Entry → List Entry),
      (∀ d2 l, ∃ t, k d2 l = l ++ t) →
      ∃ t, runChain hs d log k = log ++ t := by
  induction hs with
  | nil => intro d log k hk; exact hk d log
  | cons h t ih =>
    intro d log k hk
    rw [runChain]
    by_cases hh : h.callsNext = true
    · rw [if_pos hh]
      obtain ⟨t2, ht2⟩ := ih (h.eff d) (log ++ [{ id := h.id, params := d.params }]) k hk
      exact ⟨{ id := h.id, params := d.params } :: t2, by rw [ht2]; simp⟩
    · rw [if_neg hh]
      exact ⟨[{ id := h.id, params := d.params }], rfl⟩

lemma runChain_id_mem (hs : List Handler) :
    ∀ (d : ReqData) (log : List Entry) (e : Entry),
      e ∈ runChain hs d log (fun _ l => l) → e ∈ log ∨ e.id ∈ hs.map Handler.id := by
  induction hs with
  | nil => intro d log e he; exact Or.inl he
  | cons h t ih =>
    intro d log e he
    rw [runChain] at he
    by_cases hh : h.callsNext = true
    · rw [if_pos hh] at he
      rcases ih (h.eff d) _ e he with hmem | hid
      · rcases List.mem_append.mp hmem with hl | hr
        · exact Or.inl hl
        · right
          have : e = { id := h.id, params := d.params } := by simpa using hr
          simp [this]
      · right; simp [hid]
    · rw [if_neg hh] at he
      rcases List.mem_append.mp he with hl | hr
      · exact Or.inl hl
      · right
        have : e = { id := h.id, params := d.params } := by simpa using hr
        simp [this]

/-! ## Claim theorems -/

/-- C1 (code bug evidence): the mount-time router check `part_000` line 96
is `if (!router instanceof maritimeRouter)`, which by JS precedence tests
`(!router) instanceof maritimeRouter` — a boolean is never a Router
instance, so the guard can never fire for any argument; consequently a
plain non-Router object that happens to provide the three router methods
is mounted without any error and IS appended to the mounted-router list,
contradicting the claim that a non-Router mount fails with a
type-mismatch error and leaves the list unchanged. -/
theorem mount_router_guard_never_fires :
    (∀ v : JSValue, instanceOfMaritimeRouter (jsNot v) = false) ∧
    (Maritime.make "development" "").mount [JSValue.duckObj]
      = .ok { Maritime.make "development" "" with mountedRouters := [JSValue.duckObj] } :=
  ⟨fun v => by cases v <;> rfl, rfl⟩

/-- C2 (code bug evidence): for `mount(baseRoute, h1, ..., hk, router)`
the source computes the mount middleware as `args.slice(1, args.length - 2)`
(`part_000` line 80), which drops the final handler `hk`: with one handler
the middleware comes out empty (the handler is silently discarded), and
with two handlers only the first survives, contradicting the claim (and
the method's own doc comment) that every trailing handler is used. -/
theorem mount_drops_last_middleware :
    (Maritime.make "development" "").mount
        [JSValue.str "/base", JSValue.fn 7, JSValue.routerObj [] []]
      = .ok { Maritime.make "development" "" with
              mountedRouters := [JSValue.routerObj [] []] } ∧
    (Maritime.make "development" "").mount
        [JSValue.str "/base", JSValue.fn 1, JSValue.fn 2, JSValue.routerObj [] []]
      = .ok { Maritime.make "development" "" with
              mountedRouters := [JSValue.routerObj [] [JSValue.fn 1]] } :=
  ⟨rfl, rfl⟩

/-- C4: `rebaseRoute` on a route with a non-empty pattern prepends the
base path and recompiles the matcher (pattern, compiled segments and
parameter names all derive from the new pattern); and concretely a Route
with pattern `/info` rebased under `/api` and then under `/v1` has
effective pattern `/v1/api/info`, whose matcher accepts `/v1/api/info`
and rejects `/api/info`. -/
theorem rebaseRoute_prepends_and_recompiles :
    (∀ (r : Route) (b : String), r.path ≠ "" →
      ((r.rebaseRoute b).path = b ++ r.path ∧
        (r.rebaseRoute b).regex = pathToRegexp (b ++ r.path) ∧
        (r.rebaseRoute b).parameters = paramNames (pathToRegexp (b ++ r.path)))) ∧
    (((Route.make ["get"] "/info" []).rebaseRoute "/api").rebaseRoute "/v1").path
      = "/v1/api/info" ∧
    ((((Route.make ["get"] "/info" []).rebaseRoute "/api").rebaseRoute "/v1").matchPath
      "/v1/api/info" = true) ∧
    ((((Route.make ["get"] "/info" []).rebaseRoute "/api").rebaseRoute "/v1").matchPath
      "/api/info" = false) := by
  refine ⟨?_, by decide, by decide, by decide⟩
  intro r b h
  simp [Route.rebaseRoute, h]

/-- Witness for C4: the general rebase property applied to the concrete
route `/x` under base `/a`. -/
theorem rebaseRoute_prepends_and_recompiles_witness :
    ((Route.make [] "/x" []).rebaseRoute "/a").path = "/a" ++ (Route.make [] "/x" []).path :=
  (rebaseRoute_prepends_and_recompiles.1 (Route.make [] "/x" []) "/a" (by decide)).1

/-- C9: `rebaseRoute` on a route whose pattern is the empty (falsy) string
is the identity: pattern, parameter list and compiled matcher are left
unchanged and the route itself is returned. -/
theorem rebaseRoute_empty_path_identity :
    ∀ (r : Route) (b : String), r.path = "" → r.rebaseRoute b = r := by
  intro r b h
  simp [Route.rebaseRoute, h]

/-- Witness for C9: rebasing a concrete empty-pattern route under `/a`
returns it unchanged. -/
theorem rebaseRoute_empty_path_identity_witness :
    (Route.make [] "" []).rebaseRoute "/a" = Route.make [] "" [] :=
  rebaseRoute_empty_path_identity (Route.make [] "" []) "/a" rfl

/-- C8: `use(m)` fails exactly when `m` is not a function; when `m` is a
function the call appends it to the end of the global middleware list, and
when it throws it returns no new application state (so the list is
unchanged). -/
theorem use_appends_iff_function :
    ∀ (app : Maritime) (m : JSValue),
      ((app.use m).isOk = true ↔ jsTypeofFunction m = true) ∧
      (jsTypeofFunction m = true →
        app.use m = .ok { app with globalMiddleware := app.globalMiddleware ++ [m] }) ∧
      (jsTypeofFunction m = false →
        app.use m = .error "Middleware provided with .use() must be a function.") := by
  intro app m
  cases m <;> simp [Maritime.use, jsTypeofFunction, Except.isOk, Except.toBool]

/-- Witness for C8: `use` on a function value appends it; `use` on a
number throws the type-mismatch message. -/
theorem use_appends_iff_function_witness :
    (Maritime.make "development" "").use (.fn 0)
      = .ok { Maritime.make "development" "" with globalMiddleware := [JSValue.fn 0] } ∧
    (Maritime.make "development" "").use (.num 1)
      = .error "Middleware provided with .use() must be a function." :=
  ⟨(use_appends_iff_function (Maritime.make "development" "") (.fn 0)).2.1 rfl,
    (use_appends_iff_function (Maritime.make "development" "") (.num 1)).2.2 rfl⟩

/-- C10: `constructData` emits the `X-Powered-By: Maritime` header exactly
when the `"x-powered-by"` setting is strictly `true` at
context-construction time; the constructor initialises that setting to the
boolean `env !== "production"` (with `env` the `options.env ||
process.env.NODE_ENV || "development"` default chain), so a production
application emits no such header by default. -/
theorem xPoweredBy_header_iff :
    (∀ (app : Maritime) (u : String),
      ((app.constructData u).headers = [("X-Powered-By", "Maritime")] ↔
        isTrueVal (app.get "x-powered-by") = true)) ∧
    (∀ optionsEnv nodeEnv : String,
      (Maritime.make optionsEnv nodeEnv).get "x-powered-by"
        = .boolV (jsOrStr optionsEnv (jsOrStr nodeEnv "development") != "production")) ∧
    (∀ (nodeEnv u : String),
      ((Maritime.make "production" nodeEnv).constructData u).headers = []) := by
  refine ⟨?_, fun oe ne => rfl, fun ne u => rfl⟩
  intro app u
  by_cases h : isTrueVal (app.get "x-powered-by") = true
  · simp [Maritime.constructData, h]
  · have h2 : isTrueVal (app.get "x-powered-by") = false := by simpa using h
    simp [Maritime.constructData, h2]

/-- Witness for C10: a development-mode application emits the header. -/
theorem xPoweredBy_header_iff_witness :
    ((Maritime.make "" "").constructData "/a").headers = [("X-Powered-By", "Maritime")] :=
  (xPoweredBy_header_iff.1 (Maritime.make "" "") "/a").mpr rfl

/-- C3: for every dispatched request the three middleware tiers run in the
fixed order global, then matched Router, then matched Route (when every
handler continues and a match exists, the trace is exactly the
concatenation of the three tiers in order); and if any global middleware
never invokes its continuation, the trace stops inside the global tier, so
no router-scope or route-scope handler is ever invoked. -/
theorem middleware_tiers_order_and_shortcircuit :
    ∀ (g : List Handler) (rs : List Router) (d : ReqData),
      (∀ (m : MatchData),
        findRouteMatch rs (applyChain g d).strippedPath (applyChain g d).method = some m →
        (∀ x ∈ g, x.callsNext = true) →
        (∀ x ∈ m.router.middleware, x.callsNext = true) →
        (∀ x ∈ m.route.middleware, x.callsNext = true) →
        (handleRequest g rs d).map Entry.id
          = g.map Handler.id ++ m.router.middleware.map Handler.id
              ++ m.route.middleware.map Handler.id) ∧
      (∀ (g1 : List Handler) (h : Handler) (g2 : List Handler),
        g = g1 ++ h :: g2 → (∀ x ∈ g1, x.callsNext = true) → h.callsNext = false →
        (handleRequest g rs d).map Entry.id = g1.map Handler.id ++ [h.id]) := by
  intro g rs d
  constructor
  · intro m hm hg hrouter hroute
    rw [handleRequest, runChain_all_next g d [] _ hg]
    simp only [hm]
    rw [runChain_all_next _ _ _ _ hrouter, runChain_all_next _ _ _ _ hroute]
    simp [chainEntries_ids]
  · intro g1 h g2 hgeq hg1 hh
    subst hgeq
    rw [handleRequest, runChain_shortcircuit g1 h g2 d [] _ hg1 hh]
    simp [chainEntries_ids]

/-- Witness for C3: with global `[hA]`, router middleware `[hC]` and route
middleware `[hD]` all continuing, the trace for GET `/a` is `[0, 2, 3]`;
with the non-continuing global handler `hStop`, the trace is `[9]` alone —
no router- or route-scope handler runs. -/
theorem middleware_tiers_order_and_shortcircuit_witness :
    (handleRequest [hA] [routerA] reqA).map Entry.id = [0, 2, 3] ∧
    (handleRequest [hStop] [routerA] reqA).map Entry.id = [9] := by
  constructor
  · have h1 := (middleware_tiers_order_and_shortcircuit [hA] [routerA] reqA).1
      { route := rtA, router := routerA } rfl
      (fun x hx => by
        have hx2 : x = hA := by simpa using hx
        rw [hx2]; rfl)
      (fun x hx => by
        have hx2 : x = hC := by simpa [routerA] using hx
        rw [hx2]; rfl)
      (fun x hx => by
        have hx2 : x = hD := by simpa [rtA, Route.make] using hx
        rw [hx2]; rfl)
    simpa [hA, hC, hD, rtA, routerA, Route.make] using h1
  · have h2 := (middleware_tiers_order_and_shortcircuit [hStop] [routerA] reqA).2
      [] hStop [] rfl (fun x hx => absurd hx (List.not_mem_nil x)) rfl
    simpa [hStop] using h2

/-- C5: the dispatcher's route lookup scans the mounted Routers in mount
order: when every earlier-mounted Router resolves to nothing and a Router
resolves the (path, lowercased method) pair to a Route, `findRouteMatch`
returns exactly that Route paired with the owning Router, whatever Routers
are mounted after it. -/
theorem findRouteMatch_first_router_wins :
    ∀ (pre post : List Router) (r : Router) (path method : String) (rt : Route),
      (∀ q ∈ pre, q.findRoute path (lowerString method) = none) →
      r.findRoute path (lowerString method) = some rt →
      findRouteMatch (pre ++ r :: post) path method = some { route := rt, router := r } := by
  intro pre
  induction pre with
  | nil =>
    intro post r path method rt _ hr
    rw [List.nil_append, findRouteMatch, hr]
  | cons q qs ih =>
    intro post r path method rt hpre hr
    rw [List.cons_append, findRouteMatch, hpre q (List.mem_cons_self q qs)]
    exact ih post r path method rt (fun p hp => hpre p (List.mem_cons_of_mem q hp)) hr

/-- Witness for C5: with an empty router mounted first, GET `/a` resolves
to `rtA` owned by `routerA`, the second-mounted router. -/
theorem findRouteMatch_first_router_wins_witness :
    findRouteMatch [routerE, routerA] "/a" "GET" = some { route := rtA, router := routerA } :=
  findRouteMatch_first_router_wins [routerE] [] routerA "/a" "GET" rtA
    (fun q hq => by
      have hq2 : q = routerE := by simpa using hq
      rw [hq2]; rfl)
    rfl

/-- C6: a dispatched request that matches no mounted Router's Routes runs
exactly the global chain with a trivial continuation — request handling
completes (the embedding is total, so nothing is thrown), every invoked
handler is a global one, and the Router/Route structures, which dispatch
only reads, are untouched. -/
theorem nomatch_completes_global_only :
    ∀ (g : List Handler) (rs : List Router) (d : ReqData),
      findRouteMatch rs (applyChain g d).strippedPath (applyChain g d).method = none →
      (handleRequest g rs d = runChain g d [] (fun _ l => l) ∧
        ∀ e ∈ handleRequest g rs d, e.id ∈ g.map Handler.id) := by
  intro g rs d hm
  have heq : handleRequest g rs d = runChain g d [] (fun _ l => l) := by
    rw [handleRequest]
    apply runChain_congr_k
    intro l
    simp only [hm]
  refine ⟨heq, ?_⟩
  intro e he
  rw [heq] at he
  rcases runChain_id_mem g d [] e he with h0 | h1
  · exact absurd h0 (List.not_mem_nil e)
  · exact h1

/-- Witness for C6: GET `/nope` matches nothing, so dispatch runs only the
global handler `hA` and produces the single-entry trace. -/
theorem nomatch_completes_global_only_witness :
    handleRequest [hA] [routerA] reqNone = [{ id := 0, params := [] }] := by
  have h := (nomatch_completes_global_only [hA] [routerA] reqNone rfl).1
  rw [h]
  rfl

/-- C7: when a Route matches, the extracted parameter bindings are bound
onto the request view before the matched Router's chain is invoked: the
first router-scope handler's trace entry already records the matched
Route's `params`.  Concretely, the matcher of `/users/:id` binds
`id = "42"` on `/users/42` and rejects `/users`. -/
theorem params_bound_before_router_tier :
    (∀ (g : List Handler) (rs : List Router) (d : ReqData) (m : MatchData)
        (h : Handler) (hs : List Handler),
      (∀ x ∈ g, x.callsNext = true) →
      findRouteMatch rs (applyChain g d).strippedPath (applyChain g d).method = some m →
      m.router.middleware = h :: hs →
      (handleRequest g rs d)[g.length]? = some { id := h.id, params := m.route.params }) ∧
    regexExec (pathToRegexp "/users/:id") "/users/42" = some [("id", "42")] ∧
    regexTest (pathToRegexp "/users/:id") "/users" = false := by
  refine ⟨?_, by decide, by decide⟩
  intro g rs d m h hs hg hm hmw
  rw [handleRequest, runChain_all_next g d [] _ hg]
  simp only [hm]
  rw [hmw, runChain]
  have hlen : (chainEntries g d).length = g.length := chainEntries_length g d
  by_cases hh : h.callsNext = true
  · rw [if_pos hh]
    obtain ⟨t, ht⟩ := runChain_append_log hs _ _ _
      (fun d2 l => runChain_append_log m.route.middleware d2 l
        (fun x finalLog => finalLog) (fun d4 l2 => ⟨[], by simp⟩))
    rw [ht, List.nil_append, List.append_assoc, List.singleton_append,
      List.getElem?_append_right (le_of_eq hlen), hlen, Nat.sub_self]
    simp
  · rw [if_neg hh, List.nil_append,
      List.getElem?_append_right (le_of_eq hlen), hlen, Nat.sub_self]
    simp

/-- Witness for C7: dispatching GET `/users/42` with global `[hA]`, the
entry at position 1 of the trace — the first router-scope handler — is
`hC` invoked with `params = [(id, 42)]` already bound. -/
theorem params_bound_before_router_tier_witness :
    (handleRequest [hA] [routerU] reqU)[1]? = some { id := 2, params := [("id", "42")] } := by
  have h := params_bound_before_router_tier.1 [hA] [routerU] reqU
    { route := { rtU with params := [("id", "42")] }, router := routerU } hC []
    (fun x hx => by
      have hx2 : x = hA := by simpa using hx
      rw [hx2]; rfl)
    rfl rfl
  exact h

end Maritime
